import Mathlib

/-!
Verification development for the `vysota890-booking` MCP server (`server.py`).

The embedding models the search-filter-and-derive pipeline (`search_rooms`
and its helpers `build_query`, `unit_matches_text_filters`, `derive_safety`)
and the booking engine (`book`, `book_confirm`, `_build_monosend_payload`).

Modelling conventions:
* The Supabase datastore is a record of in-memory tables; a fetch with pushed
  filters is a `List.filter` with a predicate mirroring the `ilike`/`lte`/`gte`
  calls the source pushes to the query builder, and `properties!inner(...)`
  joins are modelled by embedding the joined property row inside each unit row.
* SQL `ILIKE '%pat%'` is modelled as case-insensitive substring containment;
  a NULL column never matches.
* Python `datetime.date` is a (year, month, day) record; subtraction in whole
  days goes through a days-since-epoch conversion (civil-from-days algorithm),
  matching `(d2 - d1).days`.
* Numeric amounts (`price_per_night`, `total_price`) are rationals.
* Columns the source reads with raw indexing (`unit["name"]`) are plain
  fields; columns it reads defensively (`x.get("city")`, `... or ""`) are
  `Option` fields.
* Exceptions are `Except String`; every operation threads the datastore state
  and returns it alongside the outcome, so an operation that raises after a
  write still exhibits that write (Python exceptions do not roll back
  previously executed datastore calls).
* The random source behind `uuid.uuid4().hex` is an explicit string argument;
  the outcome of the notification dispatch is an explicit `Except` argument.
-/

namespace Booking

/-- Python substring test `needle in hay` on char lists. -/
def listContains (needle : List Char) : List Char → Bool
  | [] => needle.isEmpty
  | c :: t => needle.isPrefixOf (c :: t) || listContains needle t

/-- Python `needle in hay` on strings. -/
def strContains (hay needle : String) : Bool :=
  listContains needle.toList hay.toList

/-- Python `str.lower()` (ASCII). -/
def toLowerStr (s : String) : String :=
  String.mk (s.toList.map Char.toLower)

/-- The maximal whitespace-free tokens of a char list (`cur` accumulates the
current token in reverse), as `re.split(r"\s+", l.strip())` produces them. -/
def wsTokens (cur : List Char) : List Char → List (List Char)
  | [] => if cur.isEmpty then [] else [cur.reverse]
  | c :: t =>
    if c.isWhitespace then
      (if cur.isEmpty then wsTokens [] t else cur.reverse :: wsTokens [] t)
    else wsTokens (c :: cur) t

/-- `sep.join(words)` on char lists. -/
def joinWith (sep : List Char) : List (List Char) → List Char
  | [] => []
  | [w] => w
  | w :: ws => w ++ sep ++ joinWith sep ws

/-- Python `sep.join(strings)`. -/
def joinStrings (sep : String) (l : List String) : String :=
  String.mk (joinWith sep.toList (l.map String.toList))

/-- Python `str.strip()`. -/
def strTrim (s : String) : String :=
  String.mk (((s.toList.dropWhile Char.isWhitespace).reverse.dropWhile Char.isWhitespace).reverse)

/-- Decimal digit character. -/
def digitChar (n : Nat) : Char := Char.ofNat (48 + n)

/-- Decimal digits of `n`, most significant first (`fuel > n` suffices). -/
def natToStrAux : Nat → Nat → List Char
  | 0, _ => []
  | fuel + 1, n =>
    if n < 10 then [digitChar n]
    else natToStrAux fuel (n / 10) ++ [digitChar (n % 10)]

/-- Python `str(n)` for a natural. -/
def natToStr (n : Nat) : String := String.mk (natToStrAux (n + 1) n)

/-- Python `str(i)` for an integer. -/
def intToStr (i : Int) : String :=
  if i < 0 then "-" ++ natToStr i.natAbs else natToStr i.natAbs

/-- `" ".join(re.split(r"\s+", str(value).strip().lower()))` from
`search_rooms.normalize_text`: lowercase, collapse whitespace runs, strip. -/
def normalize_text (s : String) : String :=
  String.mk (joinWith [' '] (wsTokens [] (toLowerStr s).toList))

/-- A calendar date as Python `datetime.date`. -/
structure Date where
  year : Int
  month : Int
  day : Int
deriving DecidableEq

/-- Days since 1970-01-01 (civil-from-days algorithm); `d2.toDays - d1.toDays`
models Python `(d2 - d1).days`. -/
def Date.toDays (d : Date) : Int :=
  let y : Int := if d.month ≤ 2 then d.year - 1 else d.year
  let era : Int := (if 0 ≤ y then y else y - 399) / 400
  let yoe : Int := y - era * 400
  let mp : Int := (d.month + 9) % 12
  let doy : Int := (153 * mp + 2) / 5 + d.day - 1
  let doe : Int := yoe * 365 + yoe / 4 - yoe / 100 + doy
  era * 146097 + doe - 719468

/-- Zero-pad a month/day component to two digits. -/
def padTwo (n : Int) : String :=
  if n < 10 then "0" ++ intToStr n else intToStr n

/-- Python `date.isoformat()`: `YYYY-MM-DD`. -/
def Date.isoformat (d : Date) : String :=
  intToStr d.year ++ "-" ++ padTwo d.month ++ "-" ++ padTwo d.day

/-- A row of the `properties` table (columns the core reads). -/
structure PropertyRow where
  id : String
  name : Option String
  city : Option String
  state : Option String
  country : Option String
  rating : Option String
  image_url : Option String
deriving DecidableEq

/-- A row of the `rooms` table with its `properties!inner(...)` join embedded.
`amenities` is a nullable json list column (a bare scalar is also accepted by
the source's `normalize_amenities`; rows of the schema carry lists or null). -/
structure UnitRow where
  id : String
  name : String
  type : Option String
  description : Option String
  price_per_night : ℚ
  currency_code : String
  max_guests : Int
  bed_config : Option String
  images : List String
  amenities : Option (List String)
  property_id : String
  properties : PropertyRow
deriving DecidableEq

/-- A row of the `guests` table (generated identifiers are naturals). -/
structure GuestRow where
  id : Nat
  property_id : String
  name : String
  email : String
  phone : String
deriving DecidableEq

/-- A row of the `bookings` table as inserted by `book_confirm`. -/
structure BookingRow where
  property_id : String
  room_id : String
  guest_id : Nat
  check_in : String
  check_out : String
  guests_count : Int
  total_price : ℚ
  currency_code : String
  status : String
  ai_handled : Bool
  source : String
deriving DecidableEq

/-- The datastore: the tables the core touches, plus the generator for the
next guest identifier the store would assign on insert. -/
structure DB where
  rooms : List UnitRow
  guests : List GuestRow
  bookings : List BookingRow
  next_guest_id : Nat
deriving DecidableEq

/-- SQL `column ILIKE '%pat%'`: case-insensitive substring; NULL never
matches. -/
def ilike_contains (field : Option String) (pat : String) : Bool :=
  match field with
  | none => false
  | some v => strContains (toLowerStr v) (toLowerStr pat)

/-- The parameters of a `search_rooms` call (source defaults). -/
structure SearchParams where
  hotel_name : String := ""
  city : String := ""
  country : String := ""
  unit_type : String := ""
  max_price : Option ℚ := none
  min_guests : Option Int := none
  amenity : String := ""
  query : String := ""
  check_in : String := ""
  check_out : String := ""
deriving DecidableEq

/-- `search_rooms.build_query` as the row predicate the pushed filters induce.
Note: the source pushes the `hotel_name` filter as
`ilike("properties.city", f-percent-hotel_name-percent)` (server.py line 309),
i.e. against the property city column. -/
def build_query (p : SearchParams) (include_country : Bool) (u : UnitRow) : Bool :=
  (p.hotel_name == "" || ilike_contains u.properties.city p.hotel_name) &&
  (p.city == "" || ilike_contains u.properties.city p.city) &&
  (!include_country || p.country == "" || ilike_contains u.properties.country p.country) &&
  (p.unit_type == "" || ilike_contains u.type p.unit_type) &&
  (match p.max_price with
   | none => true
   | some m => decide (u.price_per_night ≤ m)) &&
  (match p.min_guests with
   | none => true
   | some g => decide (g ≤ u.max_guests))

/-- `search_rooms.normalize_amenities` (list column; null becomes `[]`). -/
def normalize_amenities (raw : Option (List String)) : List String :=
  raw.getD []

/-- The normalized amenities blob of `unit_matches_text_filters`. -/
def amenities_blob (u : UnitRow) : String :=
  normalize_text (joinStrings " " (normalize_amenities u.amenities))

/-- The normalized full searchable blob of `unit_matches_text_filters`.
The function reads the joined property record's name field
(`accommodation.get("name")`, server.py line 288); note however that the rows
`search_rooms` actually fetches never carry that column (see
`search_select`), so on fetched rows the property name contributes nothing
to the blob. -/
def searchable_blob (u : UnitRow) : String :=
  normalize_text
    (joinStrings " "
      [u.name,
       u.description.getD "",
       u.type.getD "",
       u.properties.name.getD "",
       u.properties.city.getD "",
       u.properties.state.getD "",
       u.properties.country.getD "",
       joinStrings " " (normalize_amenities u.amenities)])

/-- `search_rooms.unit_matches_text_filters`: the post-fetch text filters. -/
def unit_matches_text_filters (p : SearchParams) (u : UnitRow) : Bool :=
  let normalized_query := normalize_text p.query
  let normalized_amenity := normalize_text p.amenity
  (normalized_query == "" || strContains (searchable_blob u) normalized_query) &&
  (normalized_amenity == "" || strContains (amenities_blob u) normalized_amenity)

/-- The projection of `search_rooms`' select clause
`"*, properties!inner(city, state, country, rating, image_url, lat, lng)"`
(server.py lines 304-306): every unit column is fetched, but of the joined
property only the listed columns are.  The property name column is NOT
selected, so fetched rows carry no property name (`accommodation.get("name")`
is always absent on them). The property name is the only unselected property
column the search path reads, so it is the only one the projection nulls. -/
def search_select (u : UnitRow) : UnitRow :=
  { u with properties := { u.properties with name := none } }

/-- One fetch of `search_rooms`: the pushed structured filters (evaluated by
the datastore on the full rows), the restricted select projection on the
returned rows, then the post-fetch text filters
(`[u for u in result.data if unit_matches_text_filters(u)]`). -/
def fetched_units (db : List UnitRow) (p : SearchParams) (include_country : Bool) : List UnitRow :=
  ((db.filter (build_query p include_country)).map search_select).filter
    (unit_matches_text_filters p)

/-- The outcome of the query-planner part of `search_rooms`: the unit rows
kept (`count` is their length) and the relaxation flag. -/
structure SearchOutcome where
  units : List UnitRow
  relaxed_country_filter : Bool
deriving DecidableEq

/-- The fetch-filter-relax core of `search_rooms` (server.py lines 323-333):
primary fetch with the country filter, then, when city and country were both
supplied and nothing survived, one retry with the country filter dropped. -/
def search_rooms_core (db : List UnitRow) (p : SearchParams) : SearchOutcome :=
  let units := fetched_units db p true
  if units.isEmpty && !(p.city == "") && !(p.country == "") then
    let relaxed_units := fetched_units db p false
    if relaxed_units.isEmpty then { units := units, relaxed_country_filter := false }
    else { units := relaxed_units, relaxed_country_filter := true }
  else { units := units, relaxed_country_filter := false }

/-- The lowercased amenity blob scanned by `derive_safety`. -/
def amenity_blob_of (amenities : List String) : String :=
  joinStrings " " (amenities.map toLowerStr)

/-- `search_rooms.derive_safety` (server.py lines 351-370). -/
def derive_safety (amenities : List String) : String :=
  let amenity_blob := amenity_blob_of amenities
  let lines : List String :=
    (if strContains amenity_blob "smoke alarm not reported" then ["Smoke alarm not reported"]
     else if strContains amenity_blob "smoke alarm" then ["Smoke alarm available"]
     else []) ++
    (if strContains amenity_blob "carbon monoxide alarm" then ["Carbon monoxide alarm available"] else []) ++
    (if strContains amenity_blob "camera" || strContains amenity_blob "security camera" then ["Exterior security cameras on property"] else []) ++
    (if strContains amenity_blob "fire extinguisher" then ["Fire extinguisher available"] else []) ++
    (if strContains amenity_blob "first aid kit" then ["First aid kit available"] else [])
  if lines.isEmpty then "No special safety notes provided by host."
  else joinStrings "\n" lines

/-- The parameters of a `book` call (source defaults). -/
structure BookParams where
  check_in : Date
  check_out : Date
  unit_id : String := ""
  unit_name : String := ""
  hotel_name : String := ""
  guests : Int := 2
deriving DecidableEq

/-- The `structuredContent` payload `book` assembles (server.py lines 543-556). -/
structure BookOut where
  unit_id : String
  unit_name : String
  hotel_name : String
  check_in : String
  check_out : String
  nights : Int
  guests : Int
  price_per_night : ℚ
  currency_code : String
  total_price : ℚ
  image_url : String
  rating : Option String
deriving DecidableEq

/-- `book`'s UUID shape check: `unit_id and len(unit_id) == 36 and
unit_id.count("-") == 4`. -/
def looks_like_uuid (unit_id : String) : Bool :=
  unit_id.length == 36 && unit_id.toList.count '-' == 4

/-- The payload computation of `book` after the unit is resolved
(server.py lines 538-556). -/
def book_payload (unit : UnitRow) (p : BookParams) : BookOut :=
  let nights : Int := p.check_out.toDays - p.check_in.toDays
  let total : ℚ := unit.price_per_night * (nights : ℚ)
  { unit_id := unit.id,
    unit_name := unit.name,
    hotel_name := unit.properties.city.getD "",
    check_in := p.check_in.isoformat,
    check_out := p.check_out.isoformat,
    nights := nights,
    guests := p.guests,
    price_per_night := unit.price_per_night,
    currency_code := unit.currency_code,
    total_price := total,
    image_url := unit.images.headD "",
    rating := unit.properties.rating }

/-- `.eq("id", unit_id).single()`: exactly one matching row or an error. -/
def resolve_by_uuid (db : DB) (unit_id : String) : Except String UnitRow :=
  match db.rooms.filter (fun r => r.id == unit_id) with
  | [unit] => Except.ok unit
  | _ => Except.error "single: expected exactly one row"

/-- `lookup_name = (unit_name or unit_id).strip()` from `book`. -/
def lookup_name_of (p : BookParams) : String :=
  strTrim (if p.unit_name != "" then p.unit_name else p.unit_id)

/-- `book`'s name path: `.eq("name", lookup_name)` plus
`.eq("properties.city", hotel_name)` when the hotel qualifier is supplied;
the first returned row wins. -/
def resolve_by_name (db : DB) (p : BookParams) : Except String UnitRow :=
  if lookup_name_of p == "" then Except.error "Either unit_name or unit_id is required."
  else
    match db.rooms.filter
      (fun r => r.name == lookup_name_of p &&
        (p.hotel_name == "" || r.properties.city == some p.hotel_name)) with
    | [] => Except.error ("Unable to find unit " ++ lookup_name_of p)
    | unit :: _ => Except.ok unit

/-- The `book` tool (server.py lines 488-571): resolve the unit by UUID-shaped
id or by `(name, optional hotel qualifier)`, then assemble the read-only
payload. The datastore state is returned alongside the outcome; `book` only
reads it. -/
def book (db : DB) (p : BookParams) : DB × Except String BookOut :=
  match (if looks_like_uuid p.unit_id then resolve_by_uuid db p.unit_id
         else resolve_by_name db p) with
  | Except.ok unit => (db, Except.ok (book_payload unit p))
  | Except.error msg => (db, Except.error msg)

/-- The parameters of a `book_confirm` call (source defaults). -/
structure ConfirmParams where
  unit_id : String
  check_in : Date
  check_out : Date
  guests : Int
  guest_name : String
  guest_email : String
  guest_phone : String
  total_price : ℚ
  currency_code : String := "USD"
  unit_name : String := ""
deriving DecidableEq

/-- The `structuredContent` payload `book_confirm` assembles
(server.py lines 674-691). -/
structure ConfirmOut where
  confirmation_code : String
  status : String
  unit_name : String
  hotel_name : String
  check_in : String
  check_out : String
  check_in_time : String
  check_out_time : String
  nights : Int
  guests : Int
  total_price : ℚ
  currency_code : String
  guest_name : String
  guest_email : String
  guest_phone : String
  image_url : String
deriving DecidableEq

/-- The fixed-schema email request of `_build_monosend_payload`
(server.py lines 59-93). The source formats `total` as a two-decimal string;
the amount and currency are kept unformatted here. -/
structure MonosendPayload where
  to_recipients : List String
  from_email : String
  subject : String
  hotel_unit_title : String
  bookingNumber : String
  firstName : String
  email : String
  phoneNumber : String
  guestCount : Int
  checkIn : String
  checkOut : String
  total_price : ℚ
  total_currency : String
  companyName : String
deriving DecidableEq

/-- `_build_monosend_payload`: recipient list of one, fixed sender, subject
interpolated with the supplied hotel name, template variables including the
first name split off the guest's full name at the first space. -/
def build_monosend_payload (guest_email hotel_name unit_name confirmation_code guest_name guest_phone : String)
    (guests : Int) (check_in check_out : Date) (total_price : ℚ) (currency_code : String) :
    MonosendPayload :=
  let first_name :=
    if strTrim guest_name != "" then
      String.mk ((strTrim guest_name).toList.takeWhile (fun c => !(c == ' ')))
    else guest_name
  { to_recipients := [guest_email],
    from_email := "noreply@monosend.email",
    subject := "Thanks! Your booking is confirmed at " ++ hotel_name,
    hotel_unit_title := unit_name,
    bookingNumber := confirmation_code,
    firstName := if first_name != "" then first_name else guest_name,
    email := guest_email,
    phoneNumber := guest_phone,
    guestCount := guests,
    checkIn := check_in.isoformat,
    checkOut := check_out.isoformat,
    total_price := total_price,
    total_currency := currency_code,
    companyName := hotel_name }

/-- `f"BK-{uuid.uuid4().hex[:6].upper()}"`: the fixed prefix plus the first
six characters of the random hex string, uppercased. -/
def confirmationCode (uuidHex : String) : String :=
  "BK-" ++ String.mk ((uuidHex.toList.take 6).map Char.toUpper)

/-- A successful `book_confirm` outcome: the structured payload plus the email
request handed to the notification dispatcher. -/
structure ConfirmSuccess where
  structuredContent : ConfirmOut
  emailRequest : MonosendPayload
deriving DecidableEq

/-- The guest-lookup key of the upsert: `.eq("email", guest_email)
.eq("property_id", property_id)`. -/
def guest_key (p : ConfirmParams) (property_id : String) (g : GuestRow) : Bool :=
  g.email == p.guest_email && g.property_id == property_id

/-- The in-place guest update of the upsert: overwrite name and phone of the
row with the reused identifier (`update({"name": ..., "phone": ...})
.eq("id", guest_id)`; the `updated_at` timestamp column is not modelled). -/
def guest_update (p : ConfirmParams) (guest_id : Nat) (x : GuestRow) : GuestRow :=
  if x.id == guest_id then { x with name := p.guest_name, phone := p.guest_phone } else x

/-- The freshly inserted guest row of the upsert, carrying the generated
identifier. -/
def new_guest (db : DB) (p : ConfirmParams) (property_id : String) : GuestRow :=
  { id := db.next_guest_id, property_id := property_id,
    name := p.guest_name, email := p.guest_email, phone := p.guest_phone }

/-- The reservation row `book_confirm` inserts (server.py lines 658-672). -/
def reservation_row (p : ConfirmParams) (property_id : String) (guest_id : Nat) : BookingRow :=
  { property_id := property_id,
    room_id := p.unit_id,
    guest_id := guest_id,
    check_in := p.check_in.isoformat,
    check_out := p.check_out.isoformat,
    guests_count := p.guests,
    total_price := p.total_price,
    currency_code := p.currency_code,
    status := "confirmed",
    ai_handled := true,
    source := "chatgpt" }

/-- The `structuredContent` payload `book_confirm` assembles
(server.py lines 674-691). -/
def confirm_structured (p : ConfirmParams) (unit : UnitRow) (uuidHex : String) : ConfirmOut :=
  { confirmation_code := confirmationCode uuidHex,
    status := "confirmed",
    unit_name := unit.name,
    hotel_name := unit.properties.city.getD "",
    check_in := p.check_in.isoformat,
    check_out := p.check_out.isoformat,
    check_in_time := "15:00",
    check_out_time := "11:00",
    nights := p.check_out.toDays - p.check_in.toDays,
    guests := p.guests,
    total_price := p.total_price,
    currency_code := p.currency_code,
    guest_name := p.guest_name,
    guest_email := p.guest_email,
    guest_phone := p.guest_phone,
    image_url := unit.images.headD "" }

/-- The tail of `book_confirm`'s write path after the guest upsert settled on
`guest_id` and produced the datastore state `db1`: reservation insert, payload
assembly, and the email request handed to the notification dispatcher
(built with `hotel_name = unit["properties"].get("city", "")`). -/
def book_confirm_finish (db1 : DB) (p : ConfirmParams) (uuidHex : String) (unit : UnitRow)
    (guest_id : Nat) : DB × ConfirmSuccess :=
  ({ db1 with bookings := db1.bookings ++ [reservation_row p unit.property_id guest_id] },
   { structuredContent := confirm_structured p unit uuidHex,
     emailRequest := build_monosend_payload p.guest_email (unit.properties.city.getD "")
       unit.name (confirmationCode uuidHex) p.guest_name p.guest_phone p.guests
       p.check_in p.check_out p.total_price p.currency_code })

/-- The write path of `book_confirm` once the unit is resolved and the
name-hint guard has passed (server.py lines 619-733): guest upsert keyed by
`(email, property_id)` (update name/phone in place and reuse the identifier,
else insert a new row and use the generated identifier), then the common
tail. -/
def book_confirm_success (db : DB) (p : ConfirmParams) (uuidHex : String) (unit : UnitRow) :
    DB × ConfirmSuccess :=
  match (db.guests.filter (guest_key p unit.property_id)).head? with
  | some g =>
    book_confirm_finish
      { db with guests := db.guests.map (guest_update p g.id) } p uuidHex unit g.id
  | none =>
    book_confirm_finish
      { db with
          guests := db.guests ++ [new_guest db p unit.property_id],
          next_guest_id := db.next_guest_id + 1 }
      p uuidHex unit db.next_guest_id

/-- The name-hint mismatch message of server.py lines 615-617
(source quotation marks around interpolations omitted). -/
def mismatchMsg (p : ConfirmParams) (unit : UnitRow) : String :=
  "Unit name mismatch for unit_id " ++ p.unit_id ++ ": expected " ++ unit.name ++
    ", got " ++ strTrim p.unit_name ++ "."

/-- The `book_confirm` tool (server.py lines 590-733): resolve the unit by id
(`.single()`, exactly one row), fail on a disagreeing non-empty unit-name
hint before any write, run the write path, then attempt the notification
dispatch whose failure is caught and swallowed (the branches of the final
match mirror the source's try/except around the email call: both return the
already-assembled result and the already-updated datastore). -/
def book_confirm (db : DB) (p : ConfirmParams) (uuidHex : String)
    (emailOutcome : Except String Unit) : DB × Except String ConfirmSuccess :=
  match resolve_by_uuid db p.unit_id with
  | Except.error msg => (db, Except.error msg)
  | Except.ok unit =>
    if p.unit_name ≠ "" ∧ strTrim p.unit_name ≠ unit.name then
      (db, Except.error (mismatchMsg p unit))
    else
      let s := book_confirm_success db p uuidHex unit
      match emailOutcome with
      | Except.ok _ => (s.1, Except.ok s.2)
      | Except.error _ => (s.1, Except.ok s.2)

/-- The smoke-alarm marker scan as the spec/claim words it: the not-reported
phrase takes priority over a bare smoke-alarm mention, one line either way. -/
def smoke_lines (blob : String) : List String :=
  if strContains blob "smoke alarm not reported" then ["Smoke alarm not reported"]
  else if strContains blob "smoke alarm" then ["Smoke alarm available"]
  else []

/-- The remaining fixed phrase markers in their fixed priority order, as the
spec/claim words them: carbon-monoxide alarm, camera/security-camera, fire
extinguisher, first-aid kit, each contributing one fixed line. -/
def safety_markers : List (List String × String) :=
  [(["carbon monoxide alarm"], "Carbon monoxide alarm available"),
   (["camera", "security camera"], "Exterior security cameras on property"),
   (["fire extinguisher"], "Fire extinguisher available"),
   (["first aid kit"], "First aid kit available")]

/-- The safety derivation as the spec/claim words it (scan the lowercased
amenity blob for fixed phrases in a fixed priority order, join the matched
lines with newlines, fall back to the fixed no-notes sentence); to be
compared against the source's `derive_safety`. -/
def safetySpec (amenities : List String) : String :=
  let blob := amenity_blob_of amenities
  let lines := smoke_lines blob ++
    safety_markers.filterMap
      (fun m => if m.1.any (fun ph => strContains blob ph) then some m.2 else none)
  if lines = [] then "No special safety notes provided by host."
  else joinStrings "\n" lines

/-- A property row used for concrete evaluations. -/
def exProperty : PropertyRow :=
  { id := "p1", name := some "Vysota 890", city := some "Volosianka",
    state := some "Lviv", country := some "Ukraine", rating := some "4.9",
    image_url := some "https://example.com/hotel.jpg" }

/-- A unit row used for concrete evaluations. -/
def exUnit : UnitRow :=
  { id := "u1", name := "Sova House", type := some "Home",
    description := some "Cozy mountain stay", price_per_night := 180,
    currency_code := "USD", max_guests := 4, bed_config := some "2 beds",
    images := ["https://example.com/1.jpg"],
    amenities := some ["Pool", "Hot tub", "Sauna"],
    property_id := "p1", properties := exProperty }

/-- C1: the claim says the non-empty `hotel_name` filter admits a unit only if
the value is a case-insensitive substring of the owning property's name.  The
source instead pushes the filter against the property's city column
(server.py line 309): a unit whose property city matches but whose property
name does not is returned, and a unit whose property name matches but whose
city does not is dropped. -/
theorem c1_hotel_name_filter_matches_city_not_name :
    (search_rooms_core [exUnit] { hotel_name := "volos" }).units = [search_select exUnit] ∧
    strContains (toLowerStr (exUnit.properties.name.getD "")) (toLowerStr "volos") = false ∧
    (search_rooms_core [exUnit] { hotel_name := "vysota" }).units = [] ∧
    strContains (toLowerStr (exUnit.properties.name.getD "")) (toLowerStr "vysota") = true := by
  decide

/-- C5: the source's `derive_safety` agrees everywhere with the scan the
claim describes (priority-ordered fixed phrase markers over the lowercased
amenity blob, newline-joined, fixed no-notes fallback), and on an amenity
list carrying both smoke-alarm tokens only the not-reported line is emitted. -/
theorem filterMap_toList_cons {α β : Type} (f : α → Option β) (x : α) (xs : List α) :
    List.filterMap f (x :: xs) = (f x).toList ++ List.filterMap f xs := by
  cases h : f x <;> simp [h]

theorem toList_ite_some {β : Type} (c : Bool) (l : β) :
    (if c then some l else none).toList = if c then [l] else [] := by
  cases c <;> rfl

theorem c5_safety_notes :
    (∀ a : List String, derive_safety a = safetySpec a) ∧
    derive_safety ["Smoke alarm", "Smoke alarm not reported"] = "Smoke alarm not reported" := by
  constructor
  · intro a
    unfold derive_safety safetySpec smoke_lines
    simp only [safety_markers, filterMap_toList_cons, toList_ite_some, List.filterMap_nil,
      List.append_nil, List.nil_append, List.any_cons, List.any_nil, Bool.or_false,
      List.append_assoc, List.isEmpty_iff]
  · decide

/-- C2 counterexample: the free-text query "vysota" is a substring of the
blob the claim describes (which lists the property name — `exUnit`'s property
is named "Vysota 890"), yet `search_rooms` returns nothing: the fetch does
not select the property name column, so the post-fetch filter never sees it.
The claim's "included iff substring of the concatenation including property
name" is false on the code. -/
theorem c2_counterexample :
    strContains (searchable_blob exUnit) (normalize_text "vysota") = true ∧
    (search_rooms_core [exUnit] { query := "vysota" }).units = [] := by
  decide

theorem wsTokens_space_cons (cur l : List Char) :
    wsTokens cur (' ' :: l) =
      if cur.isEmpty then wsTokens [] l else cur.reverse :: wsTokens [] l := rfl

theorem wsTokens_double_space : ∀ (l1 : List Char) (cur l2 : List Char),
    wsTokens cur (l1 ++ ' ' :: ' ' :: l2) = wsTokens cur (l1 ++ ' ' :: l2) := by
  intro l1
  induction l1 with
  | nil =>
    intro cur l2
    have h : wsTokens [] (' ' :: l2) = wsTokens [] l2 := rfl
    show wsTokens cur (' ' :: ' ' :: l2) = wsTokens cur (' ' :: l2)
    rw [wsTokens_space_cons cur (' ' :: l2), wsTokens_space_cons cur l2, h]
  | cons c t ih =>
    intro cur l2
    show wsTokens cur (c :: (t ++ ' ' :: ' ' :: l2)) = wsTokens cur (c :: (t ++ ' ' :: l2))
    simp only [wsTokens]
    by_cases hw : c.isWhitespace
    · simp [hw, ih]
    · simp [hw, ih]

theorem normalize_join_mid_empty (a b c d e f g : String) :
    normalize_text (joinStrings " " [a, b, c, "", d, e, f, g]) =
      normalize_text (joinStrings " " [a, b, c, d, e, f, g]) := by
  have hmk : ∀ l : List Char, (String.mk l).toList = l := fun _ => rfl
  have hnil : ("" : String).toList = [] := rfl
  have hsp : (" " : String).toList = [' '] := rfl
  have hlsp : Char.toLower ' ' = ' ' := rfl
  unfold normalize_text toLowerStr joinStrings
  simp only [hmk, List.map_cons, List.map_nil, joinWith, hnil, hsp, List.map_append,
    List.nil_append, List.append_nil, hlsp, List.cons_append, List.append_assoc]
  congr 1
  congr 1
  have key := wsTokens_double_space
    (List.map Char.toLower a.toList ++ ' ' :: (List.map Char.toLower b.toList ++ ' ' ::
      List.map Char.toLower c.toList)) []
    (List.map Char.toLower d.toList ++ ' ' :: (List.map Char.toLower e.toList ++ ' ' ::
      (List.map Char.toLower f.toList ++ ' ' :: List.map Char.toLower g.toList)))
  simp only [List.cons_append, List.append_assoc] at key
  exact key

/-- The searchable blob of a row as `search_rooms` actually fetches it: the
select clause omits the property name column, so the blob is the normalized
concatenation of unit name, description, type, property city, state, country,
and joined amenity labels — without the property name. -/
def searchable_blob_fetched (u : UnitRow) : String :=
  normalize_text
    (joinStrings " "
      [u.name,
       u.description.getD "",
       u.type.getD "",
       u.properties.city.getD "",
       u.properties.state.getD "",
       u.properties.country.getD "",
       joinStrings " " (normalize_amenities u.amenities)])

/-- On a fetched row the source's blob computation (whose property-name field
is absent, contributing an empty token that whitespace normalization
collapses) equals the blob without the property name. -/
theorem searchable_blob_search_select (u : UnitRow) :
    searchable_blob (search_select u) = searchable_blob_fetched u :=
  normalize_join_mid_empty u.name (u.description.getD "") (u.type.getD "")
    (u.properties.city.getD "") (u.properties.state.getD "")
    (u.properties.country.getD "") (joinStrings " " (normalize_amenities u.amenities))

/-- C2 as amended: a fetched unit row passes `unit_matches_text_filters` iff,
whenever the normalized free-text query is non-empty, it is a substring of
the normalized concatenation of unit name, description, type, property
city/state/country, and joined amenity labels — the property name never
participates, since the fetch does not select it — and, whenever the
normalized amenity filter is non-empty, it is a substring of the normalized
amenities blob only; and the units `search_rooms` keeps from a fetch are
exactly the projections of the datastore rows passing the pushed structured
filters that also pass the text filters (AND). -/
theorem c2_text_filters_no_property_name (p : SearchParams) (u : UnitRow) :
    (unit_matches_text_filters p (search_select u) = true ↔
      ((normalize_text p.query ≠ "" →
          strContains (searchable_blob_fetched u) (normalize_text p.query) = true) ∧
       (normalize_text p.amenity ≠ "" →
          strContains (amenities_blob u) (normalize_text p.amenity) = true))) ∧
    (∀ (db : List UnitRow) (v : UnitRow),
      v ∈ fetched_units db p true ↔
        ∃ u0, u0 ∈ db ∧ build_query p true u0 = true ∧ v = search_select u0 ∧
          unit_matches_text_filters p v = true) := by
  constructor
  · unfold unit_matches_text_filters
    rw [searchable_blob_search_select]
    have hab : amenities_blob (search_select u) = amenities_blob u := rfl
    rw [hab]
    simp only [Bool.and_eq_true, Bool.or_eq_true, beq_iff_eq]
    constructor
    · rintro ⟨hq, ha⟩
      exact ⟨fun h => hq.resolve_left h, fun h => ha.resolve_left h⟩
    · rintro ⟨hq, ha⟩
      constructor
      · by_cases h : normalize_text p.query = ""
        · exact Or.inl h
        · exact Or.inr (hq h)
      · by_cases h : normalize_text p.amenity = ""
        · exact Or.inl h
        · exact Or.inr (ha h)
  · intro db v
    unfold fetched_units
    rw [List.mem_filter, List.mem_map]
    constructor
    · rintro ⟨⟨u0, hu0, rfl⟩, htxt⟩
      exact ⟨u0, (List.mem_filter.mp hu0).1, (List.mem_filter.mp hu0).2, rfl, htxt⟩
    · rintro ⟨u0, hmem, hbq, rfl, htxt⟩
      exact ⟨⟨u0, List.mem_filter.mpr ⟨hmem, hbq⟩, rfl⟩, htxt⟩

/-- The parameters of the C2 witness call: amenity filter "hot". -/
def c2_params : SearchParams := { amenity := "hot" }

/-- C2 witness: the amenity filter "hot" admits the fetched `exUnit` row,
whose amenity list contains "Hot tub" (substring match on the normalized
amenities blob). -/
theorem c2_witness : unit_matches_text_filters c2_params (search_select exUnit) = true :=
  (c2_text_filters_no_property_name c2_params exUnit).1.mpr
    ⟨fun h => absurd (by decide) h, fun _ => by decide⟩

/-- C3: the country-relaxation policy of `search_rooms`.  When city and
country are both supplied and the primary fetch (with the country filter,
after the post-fetch text filters) keeps nothing: if the retry without the
country filter keeps at least one unit, that relaxed set is returned with
`relaxed_country_filter = true`; if the retry also keeps nothing, the result
is empty with the flag unset.  The relaxation never fires when the primary
fetch keeps units or when city or country is missing. -/
theorem c3_country_relaxation (db : List UnitRow) (p : SearchParams) :
    (p.city ≠ "" → p.country ≠ "" → fetched_units db p true = [] →
      fetched_units db p false ≠ [] →
      search_rooms_core db p =
        { units := fetched_units db p false, relaxed_country_filter := true }) ∧
    (p.city ≠ "" → p.country ≠ "" → fetched_units db p true = [] →
      fetched_units db p false = [] →
      search_rooms_core db p = { units := [], relaxed_country_filter := false }) ∧
    (fetched_units db p true ≠ [] →
      search_rooms_core db p =
        { units := fetched_units db p true, relaxed_country_filter := false }) ∧
    (p.city = "" ∨ p.country = "" →
      search_rooms_core db p =
        { units := fetched_units db p true, relaxed_country_filter := false }) := by
  refine ⟨?_, ?_, ?_, ?_⟩
  · intro hc hk h1 h2
    simp [search_rooms_core, h1, h2, hc, hk, List.isEmpty_iff]
  · intro hc hk h1 h2
    simp [search_rooms_core, h1, h2, hc, hk, List.isEmpty_iff]
  · intro h1
    simp [search_rooms_core, List.isEmpty_iff, h1]
  · intro h
    rcases h with h | h <;> simp [search_rooms_core, h, List.isEmpty_iff]

/-- The parameters of the C3 witness call: a city that matches `exUnit`'s
property and a country that does not. -/
def c3_params : SearchParams := { city := "Volosianka", country := "Poland" }

/-- C3 witness: the primary city+country fetch keeps nothing, the retry
without the country filter keeps `exUnit`, so the relaxed set is returned
with the flag set. -/
theorem c3_witness :
    search_rooms_core [exUnit] c3_params =
      { units := [search_select exUnit], relaxed_country_filter := true } := by
  have h := (c3_country_relaxation [exUnit] c3_params).1
    (by decide) (by decide) (by decide) (by decide)
  exact h.trans (by decide)

theorem resolve_by_uuid_mem (db : DB) (unit_id : String) (unit : UnitRow)
    (h : resolve_by_uuid db unit_id = Except.ok unit) : unit ∈ db.rooms := by
  unfold resolve_by_uuid at h
  split at h
  next u heq =>
    have : unit ∈ db.rooms.filter (fun r => r.id == unit_id) := by
      simp only [Except.ok.injEq] at h
      rw [heq, h]
      exact List.mem_singleton.mpr rfl
    exact (List.mem_filter.mp this).1
  next => simp at h

theorem resolve_by_name_mem (db : DB) (p : BookParams) (unit : UnitRow)
    (h : resolve_by_name db p = Except.ok unit) : unit ∈ db.rooms := by
  unfold resolve_by_name at h
  split at h
  · simp at h
  · split at h
    next => simp at h
    next u rest heq =>
      simp only [Except.ok.injEq] at h
      have : unit ∈ db.rooms.filter
          (fun r => r.name == lookup_name_of p &&
            (p.hotel_name == "" || r.properties.city == some p.hotel_name)) := by
        rw [heq, ← h]
        exact List.mem_cons_self u rest
      exact (List.mem_filter.mp this).1

theorem book_ok_inv (db : DB) (p : BookParams) (db2 : DB) (bout : BookOut)
    (h : book db p = (db2, Except.ok bout)) :
    db2 = db ∧ ∃ unit, unit ∈ db.rooms ∧ bout = book_payload unit p := by
  unfold book at h
  split at h
  next unit heq =>
    simp only [Prod.mk.injEq, Except.ok.injEq] at h
    refine ⟨h.1.symm, unit, ?_, h.2.symm⟩
    split at heq
    · exact resolve_by_uuid_mem db p.unit_id unit heq
    · exact resolve_by_name_mem db p unit heq
  next => simp at h

/-- C8: whenever `book` resolves a unit, the returned payload satisfies
`nights = check_out - check_in` in whole days and
`total_price = price_per_night * nights`; no hypothesis relating the two
dates is needed (the source never validates `check_out > check_in`), and the
datastore state is returned unchanged (no writes). -/
theorem c8_book_pricing (db : DB) (p : BookParams) (db2 : DB) (bout : BookOut)
    (h : book db p = (db2, Except.ok bout)) :
    db2 = db ∧
    bout.nights = p.check_out.toDays - p.check_in.toDays ∧
    bout.total_price = bout.price_per_night * (bout.nights : ℚ) := by
  obtain ⟨hdb, unit, hmem, hout⟩ := book_ok_inv db p db2 bout h
  subst hout
  exact ⟨hdb, rfl, rfl⟩

/-- The unit row of the literal pricing example: nightly price 150.00. -/
def c8_unit : UnitRow := { exUnit with id := "u150", name := "Leleka", price_per_night := 150 }

/-- The datastore of the C8 witness. -/
def c8_db : DB := { rooms := [c8_unit], guests := [], bookings := [], next_guest_id := 0 }

/-- The parameters of the C8 witness call: check-in 2026-03-10, check-out
2026-03-12. -/
def c8_params : BookParams :=
  { check_in := ⟨2026, 3, 10⟩, check_out := ⟨2026, 3, 12⟩, unit_name := "Leleka" }

/-- C8 witness: the literal example — price 150.00, check-in 2026-03-10,
check-out 2026-03-12 — yields nights = 2 and total = 300.00, with the
datastore unchanged. -/
theorem c8_witness :
    book c8_db c8_params = (c8_db, Except.ok (book_payload c8_unit c8_params)) ∧
    (book_payload c8_unit c8_params).nights = 2 ∧
    (book_payload c8_unit c8_params).total_price = 300 := by
  have hb : book c8_db c8_params = (c8_db, Except.ok (book_payload c8_unit c8_params)) := rfl
  have h := c8_book_pricing c8_db c8_params c8_db (book_payload c8_unit c8_params) hb
  have hn : (book_payload c8_unit c8_params).nights = 2 := by
    rw [h.2.1]; decide
  have hp : (book_payload c8_unit c8_params).price_per_night = 150 := rfl
  refine ⟨hb, hn, ?_⟩
  rw [h.2.2, hn, hp]
  norm_num

theorem book_confirm_email_outcome_irrelevant (db : DB) (p : ConfirmParams) (hex : String)
    (e e' : Except String Unit) :
    book_confirm db p hex e = book_confirm db p hex e' := by
  unfold book_confirm
  cases e <;> cases e' <;> rfl

theorem book_confirm_ok_inv (db : DB) (p : ConfirmParams) (hex : String) (e : Except String Unit)
    (db2 : DB) (out : ConfirmSuccess)
    (h : book_confirm db p hex e = (db2, Except.ok out)) :
    ∃ unit, resolve_by_uuid db p.unit_id = Except.ok unit ∧
      ¬(p.unit_name ≠ "" ∧ strTrim p.unit_name ≠ unit.name) ∧
      db2 = (book_confirm_success db p hex unit).1 ∧
      out = (book_confirm_success db p hex unit).2 := by
  unfold book_confirm at h
  split at h
  next => simp at h
  next unit heq =>
    split at h
    next => simp at h
    next hcond =>
      cases e <;>
        · simp only [Prod.mk.injEq, Except.ok.injEq] at h
          exact ⟨unit, heq, hcond, h.1.symm, h.2.symm⟩

theorem book_confirm_success_some (db : DB) (p : ConfirmParams) (hex : String) (unit : UnitRow)
    (g : GuestRow)
    (hg : (db.guests.filter (guest_key p unit.property_id)).head? = some g) :
    book_confirm_success db p hex unit =
      book_confirm_finish { db with guests := db.guests.map (guest_update p g.id) }
        p hex unit g.id := by
  unfold book_confirm_success
  rw [hg]

theorem book_confirm_success_none (db : DB) (p : ConfirmParams) (hex : String) (unit : UnitRow)
    (hg : (db.guests.filter (guest_key p unit.property_id)).head? = none) :
    book_confirm_success db p hex unit =
      book_confirm_finish
        { db with
            guests := db.guests ++ [new_guest db p unit.property_id],
            next_guest_id := db.next_guest_id + 1 }
        p hex unit db.next_guest_id := by
  unfold book_confirm_success
  rw [hg]

theorem book_confirm_success_shape (db : DB) (p : ConfirmParams) (hex : String) (unit : UnitRow) :
    ∃ db1 gid, book_confirm_success db p hex unit = book_confirm_finish db1 p hex unit gid ∧
      db1.bookings = db.bookings := by
  unfold book_confirm_success
  cases hg : (db.guests.filter (guest_key p unit.property_id)).head?
  · exact ⟨_, _, rfl, rfl⟩
  · exact ⟨_, _, rfl, rfl⟩

/-- C4: whenever `book_confirm` resolves the unit and the writes succeed, the
returned payload has status "confirmed" and carries the generated
confirmation code; the result (payload and datastore alike) is the same for
every outcome of the notification dispatch, which is attempted only after the
reservation row is already appended to the datastore that is returned. -/
theorem c4_email_failure_non_blocking (db : DB) (p : ConfirmParams) (hex : String)
    (e e' : Except String Unit) (db2 : DB) (out : ConfirmSuccess)
    (h : book_confirm db p hex e = (db2, Except.ok out)) :
    out.structuredContent.status = "confirmed" ∧
    out.structuredContent.confirmation_code = confirmationCode hex ∧
    book_confirm db p hex e' = (db2, Except.ok out) ∧
    ∃ b : BookingRow, db2.bookings = db.bookings ++ [b] ∧
      b.status = "confirmed" ∧ b.room_id = p.unit_id := by
  obtain ⟨unit, hres, hguard, hdb, hout⟩ := book_confirm_ok_inv db p hex e db2 out h
  obtain ⟨db1, gid, hshape, hbk⟩ := book_confirm_success_shape db p hex unit
  refine ⟨?_, ?_, ?_, ?_⟩
  · rw [hout, hshape]; rfl
  · rw [hout, hshape]; rfl
  · exact (book_confirm_email_outcome_irrelevant db p hex e' e).trans h
  · refine ⟨reservation_row p unit.property_id gid, ?_, rfl, rfl⟩
    rw [hdb, hshape]
    show db1.bookings ++ [reservation_row p unit.property_id gid] =
      db.bookings ++ [reservation_row p unit.property_id gid]
    rw [hbk]

/-- The random hex string of the witness calls. -/
def exHex : String := "0123456789abcdef0123456789abcdef"

/-- The datastore of the booking witnesses: one unit, no guests, no
reservations. -/
def exDB : DB := { rooms := [exUnit], guests := [], bookings := [], next_guest_id := 0 }

/-- The parameters of the booking witnesses. -/
def exConfirm : ConfirmParams :=
  { unit_id := "u1", check_in := ⟨2026, 3, 10⟩, check_out := ⟨2026, 3, 12⟩,
    guests := 3, guest_name := "John Doe", guest_email := "john@example.com",
    guest_phone := "+1234567890", total_price := 450 }

/-- C4 witness: with a failing dispatch the call still returns the same
successful payload (status "confirmed") and the same updated datastore as
with a succeeding dispatch. -/
theorem c4_witness :
    book_confirm exDB exConfirm exHex (Except.error "email down") =
      ((book_confirm_success exDB exConfirm exHex exUnit).1,
        Except.ok (book_confirm_success exDB exConfirm exHex exUnit).2) ∧
    (book_confirm_success exDB exConfirm exHex exUnit).2.structuredContent.status =
      "confirmed" := by
  have h := c4_email_failure_non_blocking exDB exConfirm exHex (Except.ok ())
    (Except.error "email down")
    (book_confirm_success exDB exConfirm exHex exUnit).1
    (book_confirm_success exDB exConfirm exHex exUnit).2 rfl
  exact ⟨h.2.2.1, h.1⟩

/-- C6: when a non-empty unit-name hint is supplied and its stripped value
differs from the resolved unit's name, `book_confirm` fails with the mismatch
error and the returned datastore state is exactly the input state: no guest
row is inserted or updated and no reservation row is inserted. -/
theorem c6_name_hint_mismatch_aborts (db : DB) (p : ConfirmParams) (hex : String)
    (e : Except String Unit) (unit : UnitRow)
    (hres : resolve_by_uuid db p.unit_id = Except.ok unit)
    (hn : p.unit_name ≠ "") (hm : strTrim p.unit_name ≠ unit.name) :
    book_confirm db p hex e = (db, Except.error (mismatchMsg p unit)) := by
  unfold book_confirm
  rw [hres]
  dsimp only
  rw [if_pos ⟨hn, hm⟩]

/-- The parameters of the C6 witness call: a unit-name hint disagreeing with
the resolved unit's name. -/
def c6_params : ConfirmParams := { exConfirm with unit_name := "Leleka" }

/-- C6 witness: the hint "Leleka" disagrees with the resolved name
"Sova House"; the call errors and the datastore is untouched. -/
theorem c6_witness :
    book_confirm exDB c6_params exHex (Except.ok ()) =
      (exDB, Except.error (mismatchMsg c6_params exUnit)) :=
  c6_name_hint_mismatch_aborts exDB c6_params exHex (Except.ok ()) exUnit rfl
    (by decide) (by decide)

/-- At most one guest row per `(email, property)` pair. -/
def atMostOneGuestPerKey (gs : List GuestRow) : Prop :=
  List.Pairwise (fun a b => ¬(a.email = b.email ∧ a.property_id = b.property_id)) gs

theorem guest_update_email (p : ConfirmParams) (gid : Nat) (x : GuestRow) :
    (guest_update p gid x).email = x.email := by
  unfold guest_update; split <;> rfl

theorem guest_update_property_id (p : ConfirmParams) (gid : Nat) (x : GuestRow) :
    (guest_update p gid x).property_id = x.property_id := by
  unfold guest_update; split <;> rfl

/-- C7: the guest upsert of `book_confirm`.  When a guest row with the given
email scoped to the resolved unit's property exists, no row is inserted: the
guest table is mapped through the in-place name/phone update and the
reservation reuses that row's identifier.  When none exists, exactly the one
new row is appended and the reservation uses its generated identifier.  In
either case the at-most-one-guest-per-`(email, property)` invariant is
preserved. -/
theorem c7_guest_upsert (db : DB) (p : ConfirmParams) (hex : String) (e : Except String Unit)
    (db2 : DB) (out : ConfirmSuccess) (unit : UnitRow)
    (hres : resolve_by_uuid db p.unit_id = Except.ok unit)
    (h : book_confirm db p hex e = (db2, Except.ok out)) :
    (∀ g : GuestRow, (db.guests.filter (guest_key p unit.property_id)).head? = some g →
      db2.guests = db.guests.map (guest_update p g.id) ∧
      db2.guests.length = db.guests.length ∧
      ∃ b : BookingRow, db2.bookings = db.bookings ++ [b] ∧ b.guest_id = g.id) ∧
    ((db.guests.filter (guest_key p unit.property_id)).head? = none →
      db2.guests = db.guests ++ [new_guest db p unit.property_id] ∧
      ∃ b : BookingRow, db2.bookings = db.bookings ++ [b] ∧
        b.guest_id = db.next_guest_id) ∧
    (atMostOneGuestPerKey db.guests → atMostOneGuestPerKey db2.guests) := by
  obtain ⟨unit', hres', hguard, hdb, hout⟩ := book_confirm_ok_inv db p hex e db2 out h
  have hu : unit' = unit := by
    have := hres.symm.trans hres'
    exact (Except.ok.injEq _ _ ▸ this).symm
  subst hu
  refine ⟨?_, ?_, ?_⟩
  · intro g hg
    rw [hdb, book_confirm_success_some db p hex unit' g hg]
    refine ⟨rfl, ?_, ⟨reservation_row p unit'.property_id g.id, rfl, rfl⟩⟩
    show (db.guests.map (guest_update p g.id)).length = db.guests.length
    exact List.length_map _ _
  · intro hg
    rw [hdb, book_confirm_success_none db p hex unit' hg]
    exact ⟨rfl, reservation_row p unit'.property_id db.next_guest_id, rfl, rfl⟩
  · intro hinv
    cases hg : (db.guests.filter (guest_key p unit'.property_id)).head? with
    | some g =>
      rw [hdb, book_confirm_success_some db p hex unit' g hg]
      show atMostOneGuestPerKey (db.guests.map (guest_update p g.id))
      rw [atMostOneGuestPerKey, List.pairwise_map]
      refine hinv.imp ?_
      intro a b hab hcon
      apply hab
      constructor
      · have h1 := hcon.1
        rwa [guest_update_email, guest_update_email] at h1
      · have h2 := hcon.2
        rwa [guest_update_property_id, guest_update_property_id] at h2
    | none =>
      rw [hdb, book_confirm_success_none db p hex unit' hg]
      show atMostOneGuestPerKey (db.guests ++ [new_guest db p unit'.property_id])
      rw [atMostOneGuestPerKey, List.pairwise_append]
      refine ⟨hinv, List.pairwise_singleton _ _, ?_⟩
      intro a ha b hb
      have hb' : b = new_guest db p unit'.property_id := List.mem_singleton.mp hb
      subst hb'
      rintro ⟨he, hp⟩
      have hfa := List.filter_eq_nil_iff.mp (List.head?_eq_none_iff.mp hg) a ha
      apply hfa
      unfold guest_key
      rw [Bool.and_eq_true, beq_iff_eq, beq_iff_eq]
      exact ⟨he, hp⟩

/-- A pre-existing guest row sharing email and property with the C7 witness
call. -/
def c7_guest : GuestRow :=
  { id := 5, property_id := "p1", name := "Old Name",
    email := "john@example.com", phone := "+0" }

/-- The datastore of the C7 witness: the booked property already knows the
guest's email. -/
def c7_db : DB := { rooms := [exUnit], guests := [c7_guest], bookings := [], next_guest_id := 9 }

/-- C7 witness: a repeat booking with a known `(email, property)` pair updates
the existing guest row in place and does not grow the guest table. -/
theorem c7_witness :
    (book_confirm_success c7_db exConfirm exHex exUnit).1.guests =
      c7_db.guests.map (guest_update exConfirm 5) ∧
    (book_confirm_success c7_db exConfirm exHex exUnit).1.guests.length =
      c7_db.guests.length := by
  have h := (c7_guest_upsert c7_db exConfirm exHex (Except.ok ())
      (book_confirm_success c7_db exConfirm exHex exUnit).1
      (book_confirm_success c7_db exConfirm exHex exUnit).2 exUnit rfl rfl).1
    c7_guest (by decide)
  exact ⟨h.1, h.2.1⟩

/-- The sixteen lowercase hex digits `uuid.uuid4().hex` draws from. -/
def hex_lower_digits : List Char := "0123456789abcdef".toList

/-- C9: for every value of the random source (a 32-character lowercase hex
string, as `uuid.uuid4().hex` always produces), the confirmation code of a
successful `book_confirm` is the constant prefix "BK-" followed by exactly
six uppercase alphanumeric characters. -/
theorem c9_confirmation_code_pattern (db : DB) (p : ConfirmParams) (hex : String)
    (e : Except String Unit) (db2 : DB) (out : ConfirmSuccess)
    (hlen : hex.toList.length = 32)
    (hhex : ∀ c ∈ hex.toList, c ∈ hex_lower_digits)
    (h : book_confirm db p hex e = (db2, Except.ok out)) :
    ∃ s : String, out.structuredContent.confirmation_code = "BK-" ++ s ∧
      s.toList.length = 6 ∧ ∀ c ∈ s.toList, (c.isDigit || c.isUpper) = true := by
  obtain ⟨unit, hres, hguard, hdb, hout⟩ := book_confirm_ok_inv db p hex e db2 out h
  obtain ⟨db1, gid, hshape, hbk⟩ := book_confirm_success_shape db p hex unit
  refine ⟨String.mk ((hex.toList.take 6).map Char.toUpper), ?_, ?_, ?_⟩
  · rw [hout, hshape]; rfl
  · show ((hex.toList.take 6).map Char.toUpper).length = 6
    rw [List.length_map, List.length_take, hlen]
    decide
  · intro c hc
    have hc' : c ∈ (hex.toList.take 6).map Char.toUpper := hc
    obtain ⟨c0, hc0, rfl⟩ := List.mem_map.mp hc'
    have hmem : c0 ∈ hex.toList := List.mem_of_mem_take hc0
    have hall : ∀ x ∈ hex_lower_digits,
        ((Char.toUpper x).isDigit || (Char.toUpper x).isUpper) = true := by decide
    exact hall c0 (hhex c0 hmem)

/-- C9 witness: the concrete hex draw "0123456789abcdef0123456789abcdef"
produces a code of the fixed shape (here "BK-012345"). -/
theorem c9_witness :
    ∃ s : String,
      (book_confirm_success exDB exConfirm exHex exUnit).2.structuredContent.confirmation_code =
        "BK-" ++ s ∧
      s.toList.length = 6 ∧ ∀ c ∈ s.toList, (c.isDigit || c.isUpper) = true :=
  c9_confirmation_code_pattern exDB exConfirm exHex (Except.ok ())
    (book_confirm_success exDB exConfirm exHex exUnit).1
    (book_confirm_success exDB exConfirm exHex exUnit).2
    (by decide) (by decide) rfl

/-- C10: in the payloads of `book` and `book_confirm` and in the confirmation
email's subject and companyName variable, the field labelled `hotel_name` is
populated from the resolved property's city column (empty string when the
city is absent), not from the property's name. -/
theorem c10_hotel_name_from_city :
    (∀ (unit : UnitRow) (p : BookParams),
      (book_payload unit p).hotel_name = unit.properties.city.getD "") ∧
    (∀ (db : DB) (p : BookParams) (db2 : DB) (bout : BookOut),
      book db p = (db2, Except.ok bout) →
      ∃ unit, unit ∈ db.rooms ∧ bout.hotel_name = unit.properties.city.getD "") ∧
    (∀ (db : DB) (p : ConfirmParams) (hex : String) (e : Except String Unit)
      (db2 : DB) (out : ConfirmSuccess) (unit : UnitRow),
      resolve_by_uuid db p.unit_id = Except.ok unit →
      book_confirm db p hex e = (db2, Except.ok out) →
      out.structuredContent.hotel_name = unit.properties.city.getD "" ∧
      out.emailRequest.subject =
        "Thanks! Your booking is confirmed at " ++ unit.properties.city.getD "" ∧
      out.emailRequest.companyName = unit.properties.city.getD "") := by
  refine ⟨fun unit p => rfl, ?_, ?_⟩
  · intro db p db2 bout h
    obtain ⟨_, unit, hmem, hout⟩ := book_ok_inv db p db2 bout h
    exact ⟨unit, hmem, by rw [hout]; rfl⟩
  · intro db p hex e db2 out unit hres h
    obtain ⟨unit', hres', hguard, hdb, hout⟩ := book_confirm_ok_inv db p hex e db2 out h
    have hu : unit' = unit := by
      have := hres.symm.trans hres'
      exact (Except.ok.injEq _ _ ▸ this).symm
    subst hu
    obtain ⟨db1, gid, hshape, hbk⟩ := book_confirm_success_shape db p hex unit'
    rw [hout, hshape]
    exact ⟨rfl, rfl, rfl⟩

/-- C10 witness: for the concrete booking the payload's `hotel_name`, the
email subject and the companyName variable all carry the property's city
"Volosianka", which differs from the property's name "Vysota 890". -/
theorem c10_witness :
    (book_confirm_success exDB exConfirm exHex exUnit).2.structuredContent.hotel_name =
      "Volosianka" ∧
    (book_confirm_success exDB exConfirm exHex exUnit).2.emailRequest.subject =
      "Thanks! Your booking is confirmed at Volosianka" ∧
    (book_confirm_success exDB exConfirm exHex exUnit).2.emailRequest.companyName =
      "Volosianka" ∧
    ("Volosianka" : String) ≠ exUnit.properties.name.getD "" := by
  have h := c10_hotel_name_from_city.2.2 exDB exConfirm exHex (Except.ok ())
    (book_confirm_success exDB exConfirm exHex exUnit).1
    (book_confirm_success exDB exConfirm exHex exUnit).2 exUnit rfl rfl
  exact ⟨h.1.trans (by decide), h.2.1.trans (by decide), h.2.2.trans (by decide), by decide⟩

end Booking
